import Mathlib

/-!
Verification of the FairPlay repository (a Flask web app offering a
provably-fair optimal-stopping game) against its natural-language
specification.  The Python source (app.py, models.py, views.py) is
shallowly embedded below: the SQLAlchemy models become Lean structures,
the request handlers become state-transforming functions, and library
primitives that live outside the repository (hashlib.sha256,
numpy.random.normal seeded by numpy.random.seed, werkzeug password
hashing) are universally-quantified function parameters, since the
repository only ever treats them as deterministic black boxes.

Python integers are unbounded, so every integer column is modelled as
Int (ids as Nat, used only for equality).
-/

namespace FairPlay

/-- Per-game-type configuration (games_configs.OptimalStoppingConfig):
the class-level constants MEAN, STD_LOWER_BOUND, STD_UPPER_BOUND and
NUMBERS_COUNT referenced from models.py.  Their concrete values live in
games_configs.py, which only supplies numbers; the development is
parametric in them. -/
structure Config where
  mean : Int
  stdLowerBound : Int
  stdUpperBound : Int
  numbersCount : Int
  deriving Repr, DecidableEq

/-- A row of the OptimalStoppingGame table (models.py lines 38-43 and
96-102): the BaseGame columns (user_id, bet, salt, game_over, win)
plus the concrete columns (seed, position, std, mean, std bounds,
numbers_count).  win is tri-state (models.py line 43: default None). -/
structure Game where
  userId : Nat
  bet : Int
  salt : String
  gameOver : Bool
  win : Option Bool
  seed : Int
  position : Int
  std : Int
  mean : Int
  stdLowerBound : Int
  stdUpperBound : Int
  numbersCount : Int
  deriving Repr, DecidableEq

/-- Type of the external sampler: np.random.seed(seed) followed by
np.random.normal(mean, std, count).astype(int) is a deterministic
function of (seed, mean, std, count); the embedding quantifies over it. -/
def Sampler : Type := Int → Int → Int → Int → List Int

/-- OptimalStoppingGame.numbers (models.py lines 104-109): reseeds the
generator with the stored seed and derives the full sequence from the
stored mean, std and numbers_count. -/
def numbers (np : Sampler) (g : Game) : List Int :=
  np g.seed g.mean g.std g.numbersCount

/-- OptimalStoppingGame.revealed_numbers (models.py lines 111-113):
the slice numbers[:position + 1]. -/
def revealedNumbers (np : Sampler) (g : Game) : List Int :=
  (numbers np g).take (g.position + 1).toNat

/-- OptimalStoppingGame._game_setup (models.py lines 115-117): the
f-string "{seed}:{std}". -/
def gameSetup (g : Game) : String :=
  toString g.seed ++ ":" ++ toString g.std

/-- BaseGame.hashed_setup (models.py lines 49-54): SHA-256 of the
string "{_game_setup}:{salt}", i.e. "{seed}:{std}:{salt}".  The hash
function itself is hashlib.sha256(...).hexdigest(), an external
deterministic primitive, so it is a parameter sha. -/
def hashedSetup (sha : String → String) (g : Game) : String :=
  sha (gameSetup g ++ ":" ++ g.salt)

/-- Python max over a nonempty collection of ints; max([]) raises in
Python, the [] case here is a dead default. -/
def pyMax : List Int → Int
  | [] => 0
  | h :: t => t.foldl max h

/-- OptimalStoppingGame._win_condition (models.py lines 156-157):
numbers[position] == max(numbers).  position is nonnegative whenever
this is reached (it starts at 0 and only ever increments), so Python
indexing coincides with getD at position.toNat. -/
def winCondition (nums : List Int) (position : Int) : Bool :=
  nums.getD position.toNat 0 == pyMax nums

/-- OptimalStoppingGame._check_payload (models.py lines 145-154):
the action must be one of init/stop/next, and "next" is rejected when
position == CONFIG.NUMBERS_COUNT - 1.  Note the source compares
against the class constant CONFIG.NUMBERS_COUNT, not the per-row
numbers_count column.  post_data.get("action") yields None when the
field is absent, hence Option String. -/
def checkPayload (cfg : Config) (g : Game) (action : Option String) : Bool :=
  (action == some "init" || action == some "stop" || action == some "next") &&
    !(action == some "next" && g.position == cfg.numbersCount - 1)

/-- OptimalStoppingGame.play (models.py lines 126-143): a rejected
payload or "init" leaves the row unchanged; "stop" sets win from the
win condition over the full sequence and sets game_over, in the same
step (one commit); "next" increments position. -/
def play (np : Sampler) (cfg : Config) (g : Game) (action : Option String) : Game :=
  if !(checkPayload cfg g action) then g
  else if action == some "init" then g
  else if action == some "stop" then
    { g with win := some (winCondition (numbers np g) g.position), gameOver := true }
  else if action == some "next" then
    { g with position := g.position + 1 }
  else g

/-- BaseGame.create (models.py lines 60-70): a fresh row with the given
user, bet, salt and generated setup (seed, std); every other column
takes its declared default (position 0, game_over false, win None,
mean/bounds/numbers_count from CONFIG). -/
def mkGame (cfg : Config) (userId : Nat) (bet : Int) (salt : String)
    (seed : Int) (std : Int) : Game :=
  { userId := userId
    bet := bet
    salt := salt
    gameOver := false
    win := none
    seed := seed
    position := 0
    std := std
    mean := cfg.mean
    stdLowerBound := cfg.stdLowerBound
    stdUpperBound := cfg.stdUpperBound
    numbersCount := cfg.numbersCount }

/-- Open view of a game (BaseGame.open_data, models.py lines 84-85,
with OptimalStoppingGame.OPEN_ATTRIBUTES, models.py line 93): exactly
hashed_setup, revealed_numbers, position, numbers_count, mean,
std_lower_bound, std_upper_bound. -/
structure OpenData where
  hashedSetup : String
  revealedNumbers : List Int
  position : Int
  numbersCount : Int
  mean : Int
  stdLowerBound : Int
  stdUpperBound : Int
  deriving Repr, DecidableEq

/-- Closed view of a game (BaseGame.closed_data, models.py lines 87-88,
with OptimalStoppingGame.CLOSED_ATTRIBUTES, models.py line 94): win,
hashed_setup, salt, numbers, position, numbers_count, mean, std bounds,
seed and std. -/
structure ClosedData where
  win : Option Bool
  hashedSetup : String
  salt : String
  numbers : List Int
  position : Int
  numbersCount : Int
  mean : Int
  stdLowerBound : Int
  stdUpperBound : Int
  seed : Int
  std : Int
  deriving Repr, DecidableEq

/-- BaseGame.open_data specialised to OptimalStoppingGame: reads, via
getattr, exactly the attributes listed in OPEN_ATTRIBUTES. -/
def openData (sha : String → String) (np : Sampler) (g : Game) : OpenData :=
  { hashedSetup := hashedSetup sha g
    revealedNumbers := revealedNumbers np g
    position := g.position
    numbersCount := g.numbersCount
    mean := g.mean
    stdLowerBound := g.stdLowerBound
    stdUpperBound := g.stdUpperBound }

/-- BaseGame.closed_data specialised to OptimalStoppingGame. -/
def closedData (sha : String → String) (np : Sampler) (g : Game) : ClosedData :=
  { win := g.win
    hashedSetup := hashedSetup sha g
    salt := g.salt
    numbers := numbers np g
    position := g.position
    numbersCount := g.numbersCount
    mean := g.mean
    stdLowerBound := g.stdLowerBound
    stdUpperBound := g.stdUpperBound
    seed := g.seed
    std := g.std }

/-- Python str.isnumeric as applied to form input restricted to ASCII:
nonempty and every character a decimal digit.  (Exotic Unicode numeric
characters are outside this model.)  Stated over the character list of
the string. -/
def pyIsNumeric (s : String) : Bool :=
  !(s.data.isEmpty) && s.data.all Char.isDigit

/-- Positional value of a decimal-digit character list. -/
def digitsVal : List Char → Nat → Nat
  | [], acc => acc
  | c :: cs, acc => digitsVal cs (acc * 10 + (c.toNat - 48))

/-- Python int(s) for the decimal-digit strings admitted by
str.isnumeric (leading zeros behave identically). -/
def pyInt (s : String) : Int :=
  (digitsVal s.data 0 : Nat)

/-- The POST form of the play request: request.form.get("bet") and
request.form.get("action"), each None when absent. -/
structure Form where
  bet : Option String
  action : Option String
  deriving Repr, DecidableEq

/-- Persisted application state: the optimal-stopping game rows in
insertion (autoincrement-id) order, and each user balance. -/
structure SysState where
  games : List Game
  balances : Nat → Int

/-- Result of one play request: the committed state and the user-facing
message rendered into the template, if any. -/
structure ReqResult where
  state : SysState
  message : Option String

/-- BaseGame.get (models.py lines 72-76): the first row with this
user_id and game_over == False. -/
def getActive (games : List Game) (uid : Nat) : Option Game :=
  games.find? (fun g => g.userId == uid && !g.gameOver)

/-- In-place mutation of the row found by BaseGame.get: the first
active row of the user is replaced by its played version, all other
rows are untouched. -/
def playFirstActive (np : Sampler) (cfg : Config) (games : List Game)
    (uid : Nat) (action : Option String) : List Game :=
  match games with
  | [] => []
  | g :: gs =>
    if g.userId == uid && !g.gameOver then play np cfg g action :: gs
    else g :: playFirstActive np cfg gs uid action

/-- The POST branch of the play view (views.py lines 87-109) for one
authenticated user.  The per-request randomness of game creation
(token_hex salt, secure_random seed and std from _generate_setup) is
passed in as salt/seed/std.  When no active game exists: the bet is
validated (non-numeric or non-positive yields "Invalid bet.", a bet
above the balance yields "You don't have enough money.", each with no
state change; an absent bet field raises AttributeError in Python, so
nothing is committed either), otherwise the game is created and the
balance debited.  Then game.play(request.form) runs, a winning row
credits 2 * bet, and the terminal message reflects win.  -/
def playRequest (np : Sampler) (cfg : Config)
    (s : SysState) (uid : Nat) (form : Form)
    (salt : String) (seed : Int) (std : Int) : ReqResult :=
  match getActive s.games uid with
  | some g =>
    let g2 := play np cfg g form.action
    let games2 := playFirstActive np cfg s.games uid form.action
    let bal2 := if g2.win == some true then
        fun u => if u == uid then s.balances u + 2 * g2.bet else s.balances u
      else s.balances
    { state := { games := games2, balances := bal2 }
      message := if !g2.gameOver then none
        else if g2.win == some true then some "You win." else some "You lose." }
  | none =>
    match form.bet with
    | none => { state := s, message := none }
    | some betStr =>
      if !(pyIsNumeric betStr) || !(pyInt betStr > 0) then
        { state := s, message := some "Invalid bet." }
      else if s.balances uid < pyInt betStr then
        { state := s, message := some "You don't have enough money." }
      else
        let bet := pyInt betStr
        let g0 := mkGame cfg uid bet salt seed std
        let bal1 : Nat → Int :=
          fun u => if u == uid then s.balances u - bet else s.balances u
        let g2 := play np cfg g0 form.action
        let bal2 := if g2.win == some true then
            fun u => if u == uid then bal1 u + 2 * bet else bal1 u
          else bal1
        { state := { games := s.games ++ [g2], balances := bal2 }
          message := if !g2.gameOver then none
            else if g2.win == some true then some "You win." else some "You lose." }

/-- Number of non-terminal rows of one user. -/
def countActive (games : List Game) (uid : Nat) : Nat :=
  (games.filter (fun g => g.userId == uid && !g.gameOver)).length

/-- Reachable persisted states: the empty table with every registered
user at the default balance, closed under arbitrary play requests
(arbitrary user, form and per-request randomness). -/
inductive Reachable (np : Sampler) (cfg : Config) :
    SysState → Prop
  | init : Reachable np cfg { games := [], balances := fun _ => 1000 }
  | step (s : SysState) (uid : Nat) (form : Form)
      (salt : String) (seed : Int) (std : Int) :
      Reachable np cfg s →
      Reachable np cfg (playRequest np cfg s uid form salt seed std).state

/-- A row of the User table (models.py lines 14-18): username unique,
werkzeug-hashed password, integer balance with column default 1000. -/
structure UserRec where
  username : String
  passwordHash : String
  balance : Int
  deriving Repr, DecidableEq

/-- The User constructor as used by the register view: the password
setter stores generate_password_hash(password) (an external primitive,
parameter pwHash) and balance takes its column default 1000. -/
def newUser (pwHash : String → String) (username password : String) : UserRec :=
  { username := username, passwordHash := pwHash password, balance := 1000 }

/-- The POST branch of the register view (views.py lines 24-38): the
insert commits unless the unique constraint on username fires
(IntegrityError), in which case the session is rolled back and the
duplicate-account message rendered. -/
def registerUser (pwHash : String → String) (users : List UserRec)
    (username password : String) : List UserRec × String :=
  if users.any (fun u => u.username == username) then
    (users, "Account with this username already exists.")
  else
    (users ++ [newUser pwHash username password],
      "Account has been created.")

/-- A snapshot of the persisted data touched by game creation: whether
the new game row is in the store, and the creating user balance. -/
structure CreateSnap where
  gamePersisted : Bool
  balance : Int
  deriving Repr, DecidableEq

/-- The successive committed snapshots of the create path of the play
view: BaseGame.create commits the new game row on its own (models.py
lines 67-68), and only afterwards does the view debit the balance and
commit again (views.py lines 97-98).  Each list entry is what is
durable after the corresponding db.session.commit(). -/
def createCommitSnaps (balance0 : Int) (bet : Int) : List CreateSnap :=
  [ { gamePersisted := true, balance := balance0 },
    { gamePersisted := true, balance := balance0 - bet } ]

/-! Basic facts about play: which columns it can touch. -/

theorem play_userId (np : Sampler) (cfg : Config) (g : Game) (a : Option String) :
    (play np cfg g a).userId = g.userId := by
  simp only [play]; split_ifs <;> rfl

theorem play_bet (np : Sampler) (cfg : Config) (g : Game) (a : Option String) :
    (play np cfg g a).bet = g.bet := by
  simp only [play]; split_ifs <;> rfl

theorem play_seed (np : Sampler) (cfg : Config) (g : Game) (a : Option String) :
    (play np cfg g a).seed = g.seed := by
  simp only [play]; split_ifs <;> rfl

theorem play_std (np : Sampler) (cfg : Config) (g : Game) (a : Option String) :
    (play np cfg g a).std = g.std := by
  simp only [play]; split_ifs <;> rfl

theorem play_salt (np : Sampler) (cfg : Config) (g : Game) (a : Option String) :
    (play np cfg g a).salt = g.salt := by
  simp only [play]; split_ifs <;> rfl

theorem play_gameOver_of_gameOver (np : Sampler) (cfg : Config) (g : Game)
    (a : Option String) (h : g.gameOver = true) : (play np cfg g a).gameOver = true := by
  simp only [play]; split_ifs <;> simp [h]

theorem hashedSetup_play (sha : String → String) (np : Sampler) (cfg : Config)
    (g : Game) (a : Option String) :
    hashedSetup sha (play np cfg g a) = hashedSetup sha g := by
  simp [hashedSetup, gameSetup, play_seed, play_std, play_salt]

/-! Concrete instances used by the witnesses below. -/

/-- A concrete deterministic sampler for witness evaluation. -/
def sampleW : Sampler := fun seed mean std count => [seed, mean, std, count]

/-- A concrete configuration for witness evaluation. -/
def cfgW : Config :=
  { mean := 0, stdLowerBound := 1, stdUpperBound := 10, numbersCount := 5 }

/-- A freshly created concrete game for witness evaluation. -/
def gW : Game := mkGame cfgW 1 100 "aa" 9 2

/-- The concrete game advanced to the last position. -/
def gW2 : Game := { gW with position := 4 }

/-- C1: resolving an optimal-stopping game with the "stop" action sets
game_over = true in the very step that sets win, and win = some true
exactly when the number at the position where "stop" was issued equals
the maximum of the full derived sequence. -/
theorem stop_resolves_iff_global_max (np : Sampler) (cfg : Config) (g : Game)
    (h : g.position.toNat < (numbers np g).length) :
    (play np cfg g (some "stop")).gameOver = true ∧
      ((play np cfg g (some "stop")).win = some true ↔
        (numbers np g).get ⟨g.position.toNat, h⟩ = pyMax (numbers np g)) := by
  have hp : play np cfg g (some "stop") =
      { g with win := some (winCondition (numbers np g) g.position), gameOver := true } := by
    simp [play, checkPayload]
  rw [hp]
  refine ⟨rfl, ?_⟩
  simp only [Option.some.injEq, winCondition]
  rw [List.getD_eq_getElem (numbers np g) 0 h]
  simp [List.get_eq_getElem]

/-- Witness for C1: on a concrete game stopped at the global maximum,
the resolution happens in one step and win is true. -/
theorem stop_resolves_iff_global_max_witness :
    (play sampleW cfgW gW (some "stop")).gameOver = true ∧
    (play sampleW cfgW gW (some "stop")).win = some true := by
  have h : gW.position.toNat < (numbers sampleW gW).length := by decide
  obtain ⟨h1, h2⟩ := stop_resolves_iff_global_max sampleW cfgW gW h
  exact ⟨h1, h2.mpr rfl⟩

/-- C2: the commitment hash is the SHA-256 of the string
"{seed}:{std}:{salt}", and it is unchanged by every sequence of play
actions, so recomputing it after resolution from the stored seed, std
and salt yields exactly the hash published at game creation. -/
theorem hashedSetup_format_and_stable (sha : String → String) (np : Sampler)
    (cfg : Config) (g : Game) (actions : List (Option String)) :
    hashedSetup sha g =
      sha (toString g.seed ++ ":" ++ toString g.std ++ ":" ++ g.salt) ∧
    hashedSetup sha (actions.foldl (play np cfg) g) = hashedSetup sha g := by
  refine ⟨rfl, ?_⟩
  induction actions generalizing g with
  | nil => rfl
  | cons a as ih => rw [List.foldl_cons, ih (play np cfg g a), hashedSetup_play]

/-- C3: the derived number sequence is a pure function of the stored
(seed, mean, std, numbers_count): any two games agreeing on these four
parameters derive identical sequences, so regenerating from the stored
record reproduces exactly the sequence used during play. -/
theorem numbers_deterministic (np : Sampler) (g1 g2 : Game)
    (h1 : g1.seed = g2.seed) (h2 : g1.mean = g2.mean)
    (h3 : g1.std = g2.std) (h4 : g1.numbersCount = g2.numbersCount) :
    numbers np g1 = numbers np g2 := by
  unfold numbers
  rw [h1, h2, h3, h4]

/-- Witness for C3: two concrete games sharing the setup parameters but
differing in salt, position and game_over derive the same sequence. -/
theorem numbers_deterministic_witness :
    numbers sampleW gW =
      numbers sampleW { gW with salt := "bb", position := 3, gameOver := true } := by
  exact numbers_deterministic sampleW gW
    { gW with salt := "bb", position := 3, gameOver := true } rfl rfl rfl rfl

/-- C5: for a game whose numbers_count column holds the configured
count (as every created game does), a "next" action issued at
position = numbers_count - 1 is rejected and leaves the game state
unchanged, and any other "next" increments position by exactly one. -/
theorem next_rejected_at_last_position (np : Sampler) (cfg : Config) (g : Game)
    (hcnt : g.numbersCount = cfg.numbersCount) :
    (g.position = g.numbersCount - 1 → play np cfg g (some "next") = g) ∧
    (g.position ≠ g.numbersCount - 1 →
      play np cfg g (some "next") = { g with position := g.position + 1 }) := by
  rw [hcnt]
  constructor
  · intro hp
    simp [play, checkPayload, hp]
  · intro hp
    simp [play, checkPayload, hp, hcnt]

/-- Witness for C5: on the concrete game at the final position the
"next" action is a no-op. -/
theorem next_rejected_at_last_position_witness :
    gW2.numbersCount = cfgW.numbersCount ∧
    gW2.position = gW2.numbersCount - 1 ∧
    play sampleW cfgW gW2 (some "next") = gW2 := by
  refine ⟨rfl, by decide, ?_⟩
  exact (next_rejected_at_last_position sampleW cfgW gW2 rfl).1 (by decide)

/-! Further concrete instances used by witnesses. -/

/-- A second concrete sampler whose first element is seed-independent,
used to witness that the open view leaks no unrevealed number. -/
def sampleW2 : Sampler := fun seed mean std count => [mean, seed, std, count]

/-- A concrete stand-in for the external SHA-256 hex digest. -/
def shaW : String → String := fun _ => "c0ffee"

/-- A concrete stand-in for the external password hasher. -/
def pwHashW : String → String := fun s => s ++ "#hashed"

/-- The initial persisted state: no game rows, default balances. -/
def sInitW : SysState := { games := [], balances := fun _ => 1000 }

/-- A persisted state holding one active game of user 1. -/
def tW : SysState := { games := [gW], balances := fun _ => 900 }

/-- C9: the open view is assembled from exactly the commitment hash,
the revealed prefix (the first position + 1 derived numbers), the
position and the public configuration, so any two games agreeing on
those agree on their entire open view (in particular the open view
carries no seed, std, salt or unrevealed-number dependence beyond
them); the closed view exposes seed, std, salt and the full sequence
for verification. -/
theorem open_view_hides_secrets (sha : String → String) (np : Sampler)
    (g1 g2 : Game)
    (hh : hashedSetup sha g1 = hashedSetup sha g2)
    (hr : revealedNumbers np g1 = revealedNumbers np g2)
    (hp : g1.position = g2.position) (hc : g1.numbersCount = g2.numbersCount)
    (hm : g1.mean = g2.mean) (hl : g1.stdLowerBound = g2.stdLowerBound)
    (hu : g1.stdUpperBound = g2.stdUpperBound) :
    openData sha np g1 = openData sha np g2 ∧
    revealedNumbers np g1 = (numbers np g1).take (g1.position + 1).toNat ∧
    (closedData sha np g1).seed = g1.seed ∧
    (closedData sha np g1).std = g1.std ∧
    (closedData sha np g1).salt = g1.salt ∧
    (closedData sha np g1).numbers = numbers np g1 := by
  refine ⟨?_, rfl, rfl, rfl, rfl, rfl⟩
  simp [openData, hh, hr, hp, hc, hm, hl, hu]

/-- Witness for C9: two concrete in-progress games that differ in their
secret seed, and hence in their unrevealed numbers, have identical open
views. -/
theorem open_view_hides_secrets_witness :
    openData shaW sampleW2 gW = openData shaW sampleW2 { gW with seed := 5 } ∧
    numbers sampleW2 gW ≠ numbers sampleW2 { gW with seed := 5 } ∧
    gW.seed ≠ ({ gW with seed := 5 } : Game).seed := by
  refine ⟨?_, by decide, by decide⟩
  exact (open_view_hides_secrets shaW sampleW2 gW { gW with seed := 5 }
    rfl (by decide) rfl rfl rfl rfl rfl).1

/-- C10: a registration that does not hit the username uniqueness
constraint persists exactly one new user row, and that row carries the
balance column default 1000. -/
theorem register_default_balance (pwHash : String → String)
    (users : List UserRec) (username password : String)
    (h : users.any (fun u => u.username == username) = false) :
    (registerUser pwHash users username password).1 =
      users ++ [newUser pwHash username password] ∧
    (registerUser pwHash users username password).2 =
      "Account has been created." ∧
    (newUser pwHash username password).balance = 1000 := by
  unfold registerUser
  rw [h]
  exact ⟨rfl, rfl, rfl⟩

/-- Witness for C10: registering a first user in the empty store yields
one row with balance 1000. -/
theorem register_default_balance_witness :
    ([] : List UserRec).any (fun u => u.username == "alice") = false ∧
    (registerUser pwHashW [] "alice" "pw").1 = [newUser pwHashW "alice" "pw"] ∧
    (newUser pwHashW "alice" "pw").balance = 1000 := by
  have h := register_default_balance pwHashW [] "alice" "pw" rfl
  exact ⟨rfl, h.1, h.2.2⟩

/-- C4 is refuted as implemented: with starting balance 1000 and bet
100, the first committed snapshot of the create path (the commit issued
inside BaseGame.create, models.py line 68) already has the game row
persisted while the balance still reads 1000; only the later, separate
commit (views.py line 98) records the debit.  Hence it is not the case
that every committed snapshot with the game persisted also carries the
debited balance: the two changes are not one atomic unit, and a crash
between the two commits leaves the game persisted with the bet not
debited. -/
theorem create_commit_not_atomic :
    (createCommitSnaps 1000 100).head? =
      some { gamePersisted := true, balance := 1000 } ∧
    ¬ (∀ snap ∈ createCommitSnaps 1000 100,
        snap.gamePersisted = true → snap.balance = 1000 - 100) := by
  refine ⟨rfl, ?_⟩
  intro h
  have := h { gamePersisted := true, balance := 1000 } (by decide) rfl
  simp at this

/-- C6: when the user has no active game, a bet that is not a positive
numeral is answered with "Invalid bet." and a positive numeral above
the balance with "You don't have enough money.", in both cases with the
persisted state returned unchanged (no game row, no balance change). -/
theorem bet_validation_messages (np : Sampler) (cfg : Config) (s : SysState)
    (uid : Nat) (betStr : String) (a : Option String)
    (salt : String) (seed std : Int)
    (hactive : getActive s.games uid = none) :
    (¬ (pyIsNumeric betStr = true ∧ 0 < pyInt betStr) →
      playRequest np cfg s uid { bet := some betStr, action := a } salt seed std =
        { state := s, message := some "Invalid bet." }) ∧
    (pyIsNumeric betStr = true → 0 < pyInt betStr →
      s.balances uid < pyInt betStr →
      playRequest np cfg s uid { bet := some betStr, action := a } salt seed std =
        { state := s, message := some "You don't have enough money." }) := by
  unfold playRequest
  rw [hactive]
  constructor
  · intro h
    by_cases h1 : pyIsNumeric betStr = true
    · by_cases h2 : 0 < pyInt betStr
      · exact absurd ⟨h1, h2⟩ h
      · simp [h1, h2]
    · rw [Bool.not_eq_true] at h1
      simp [h1]
  · intro h1 h2 h3
    simp [h1, h2, h3]

/-- Witness for C6: in the initial state, bet "abc" is invalid and the
state is unchanged; bet "2000" exceeds the balance of 1000 and the
state is unchanged. -/
theorem bet_validation_messages_witness :
    getActive sInitW.games 7 = none ∧
    (playRequest sampleW cfgW sInitW 7
        { bet := some "abc", action := some "init" } "aa" 9 2 =
      { state := sInitW, message := some "Invalid bet." }) ∧
    (playRequest sampleW cfgW sInitW 7
        { bet := some "2000", action := some "init" } "aa" 9 2 =
      { state := sInitW, message := some "You don't have enough money." }) := by
  refine ⟨rfl, ?_, ?_⟩
  · exact (bet_validation_messages sampleW cfgW sInitW 7 "abc" (some "init")
      "aa" 9 2 rfl).1 (by intro h; exact absurd h.1 (by decide))
  · exact (bet_validation_messages sampleW cfgW sInitW 7 "2000" (some "init")
      "aa" 9 2 rfl).2 (by decide) (by decide) (by decide)

theorem play_win_next (np : Sampler) (cfg : Config) (g : Game) :
    (play np cfg g (some "next")).win = g.win := by
  unfold play
  split_ifs <;> simp_all

/-- C8: balance accounting of the play view: a successful create debits
the balance by exactly the bet; a stop that wins credits exactly
2 * bet on top of the pre-stop balance; a stop that loses leaves every
balance unchanged from its post-create value; and a "next" on an
in-progress game (win column still unset) changes no balance — so a
create followed by a winning stop nets a gain of exactly the bet. -/
theorem balance_accounting (np : Sampler) (cfg : Config) (s t : SysState)
    (uid : Nat) (betStr : String) (salt : String) (seed std : Int)
    (g : Game) (b : Option String)
    (hactive : getActive s.games uid = none)
    (hnum : pyIsNumeric betStr = true) (hpos : 0 < pyInt betStr)
    (hbal : ¬ (s.balances uid < pyInt betStr))
    (hg : getActive t.games uid = some g)
    (hwin0 : g.win = none) :
    ((playRequest np cfg s uid { bet := some betStr, action := some "init" }
        salt seed std).state.balances uid = s.balances uid - pyInt betStr) ∧
    (winCondition (numbers np g) g.position = true →
      (playRequest np cfg t uid { bet := b, action := some "stop" }
        salt seed std).state.balances uid = t.balances uid + 2 * g.bet) ∧
    (winCondition (numbers np g) g.position = false →
      (playRequest np cfg t uid { bet := b, action := some "stop" }
        salt seed std).state.balances = t.balances) ∧
    ((playRequest np cfg t uid { bet := b, action := some "next" }
        salt seed std).state.balances = t.balances) := by
  refine ⟨?_, ?_, ?_, ?_⟩
  · unfold playRequest
    rw [hactive]
    simp [hnum, hpos, hbal, play, checkPayload, mkGame]
  · intro hw
    unfold playRequest
    rw [hg]
    simp [play, checkPayload, hw]
  · intro hw
    unfold playRequest
    rw [hg]
    simp [play, checkPayload, hw]
  · unfold playRequest
    rw [hg]
    simp [play_win_next, hwin0]

/-- Witness for C8: starting from 1000, creating a 100 bet leaves 900;
on a state holding the active game gW (bet 100, stopped on the global
maximum of its derived sequence) the stop credits 200 onto 900. -/
theorem balance_accounting_witness :
    getActive sInitW.games 1 = none ∧
    pyIsNumeric "100" = true ∧
    (0 : Int) < pyInt "100" ∧
    ¬ (sInitW.balances 1 < pyInt "100") ∧
    getActive tW.games 1 = some gW ∧
    gW.win = none ∧
    winCondition (numbers sampleW gW) gW.position = true ∧
    (playRequest sampleW cfgW sInitW 1
        { bet := some "100", action := some "init" } "aa" 9 2).state.balances 1
      = 1000 - 100 ∧
    (playRequest sampleW cfgW tW 1
        { bet := none, action := some "stop" } "aa" 9 2).state.balances 1
      = 900 + 2 * 100 := by
  have h := balance_accounting sampleW cfgW sInitW tW 1 "100" "aa" 9 2 gW none
    rfl (by decide) (by decide) (by decide) rfl rfl
  refine ⟨rfl, by decide, by decide, by decide, rfl, rfl, by decide, h.1, ?_⟩
  exact h.2.1 (by decide)

/-! Counting lemmas for the one-active-game-per-user invariant. -/

theorem countActive_nil (uid : Nat) : countActive [] uid = 0 := rfl

theorem countActive_cons (g : Game) (gs : List Game) (uid : Nat) :
    countActive (g :: gs) uid =
      (if (g.userId == uid && !g.gameOver) = true then 1 else 0) +
        countActive gs uid := by
  simp only [countActive, List.filter_cons]
  split_ifs <;> simp [Nat.add_comm]

theorem countActive_append (l1 l2 : List Game) (uid : Nat) :
    countActive (l1 ++ l2) uid = countActive l1 uid + countActive l2 uid := by
  simp [countActive, List.filter_append]

theorem countActive_eq_zero_of_none (games : List Game) (uid : Nat)
    (h : getActive games uid = none) : countActive games uid = 0 := by
  unfold countActive
  rw [List.filter_eq_nil_iff.mpr]
  · rfl
  · intro g hg
    exact fun hpg => List.find?_eq_none.mp h g hg hpg

theorem play_active_imp (np : Sampler) (cfg : Config) (g : Game)
    (a : Option String) (u : Nat)
    (h : ((play np cfg g a).userId == u && !(play np cfg g a).gameOver) = true) :
    (g.userId == u && !g.gameOver) = true := by
  rw [Bool.and_eq_true] at h ⊢
  obtain ⟨h1, h2⟩ := h
  rw [play_userId] at h1
  refine ⟨h1, ?_⟩
  rw [Bool.not_eq_true'] at h2 ⊢
  by_contra hc
  rw [Bool.not_eq_false] at hc
  rw [play_gameOver_of_gameOver np cfg g a hc] at h2
  exact Bool.noConfusion h2

theorem countActive_playFirstActive_le (np : Sampler) (cfg : Config)
    (games : List Game) (uid u : Nat) (a : Option String) :
    countActive (playFirstActive np cfg games uid a) u ≤ countActive games u := by
  induction games with
  | nil => exact Nat.le_refl 0
  | cons g gs ih =>
    cases hg : (g.userId == uid && !g.gameOver) with
    | true =>
      simp only [playFirstActive, hg, if_true]
      rw [countActive_cons, countActive_cons]
      refine Nat.add_le_add ?_ (Nat.le_refl _)
      split_ifs with h1 h2
      · exact Nat.le_refl 1
      · exact absurd (play_active_imp np cfg g a u h1) (by simp [h2])
      · exact Nat.zero_le 1
      · exact Nat.le_refl 0
    | false =>
      simp only [playFirstActive, hg, Bool.false_eq_true, if_false]
      rw [countActive_cons, countActive_cons]
      exact Nat.add_le_add (Nat.le_refl _) ih

theorem playRequest_preserves_at_most_one (np : Sampler) (cfg : Config)
    (s : SysState) (uid : Nat) (form : Form) (salt : String) (seed std : Int)
    (hInv : ∀ u, countActive s.games u ≤ 1) (u : Nat) :
    countActive
      (playRequest np cfg s uid form salt seed std).state.games u ≤ 1 := by
  unfold playRequest
  cases hga : getActive s.games uid with
  | some g =>
    exact Nat.le_trans (countActive_playFirstActive_le np cfg s.games uid u form.action) (hInv u)
  | none =>
    cases hbet : form.bet with
    | none => exact hInv u
    | some betStr =>
      dsimp only
      by_cases h1 : (!pyIsNumeric betStr || !decide (pyInt betStr > 0)) = true
      · rw [if_pos h1]
        exact hInv u
      · rw [if_neg h1]
        by_cases h2 : s.balances uid < pyInt betStr
        · rw [if_pos h2]
          exact hInv u
        · rw [if_neg h2]
          dsimp only
          rw [countActive_append]
          have huser : (play np cfg (mkGame cfg uid (pyInt betStr) salt seed std)
              form.action).userId = uid := by
            rw [play_userId]; rfl
          by_cases hu : u = uid
          · subst hu
            rw [countActive_eq_zero_of_none s.games u hga]
            rw [countActive_cons, countActive_nil]
            split_ifs <;> simp
          · have hone : countActive [play np cfg
                (mkGame cfg uid (pyInt betStr) salt seed std) form.action] u = 0 := by
              rw [countActive_cons, countActive_nil]
              split_ifs with h3
              · rw [Bool.and_eq_true] at h3
                rw [huser] at h3
                have huv : uid = u := by simpa using h3.1
                exact absurd huv.symm hu
              · rfl
            rw [hone]
            exact Nat.le_trans (Nat.le_of_eq (Nat.add_zero _)) (hInv u)

/-- C7: in every reachable persisted state each user owns at most one
game with game_over = false: games are only created when the
active-game lookup finds none, and a play step never revives a
resolved game nor touches another user's rows. -/
theorem at_most_one_active_game (np : Sampler) (cfg : Config) (s : SysState)
    (h : Reachable np cfg s) : ∀ uid : Nat, countActive s.games uid ≤ 1 := by
  induction h with
  | init => intro uid; exact Nat.le_of_eq rfl |>.trans (by simp [countActive])
  | step s0 u form salt seed std hr ih =>
    intro uid
    exact playRequest_preserves_at_most_one np cfg s0 u form salt seed std ih uid

/-- Witness for C7: after one create request from the initial state,
user 1 owns at most one active game (and the bound also holds
concretely with one active row). -/
theorem at_most_one_active_game_witness :
    countActive (playRequest sampleW cfgW sInitW 1
      { bet := some "100", action := some "init" } "aa" 9 2).state.games 1 ≤ 1 := by
  exact at_most_one_active_game sampleW cfgW _
    (Reachable.step sInitW 1 { bet := some "100", action := some "init" }
      "aa" 9 2 Reachable.init) 1

end FairPlay
